import Mathlib

/-!
Verification development for the BlockHealth repository.

Part 1 embeds the three Solidity contracts (`contracts/AdminContract.sol`,
`contracts/MedicContract.sol`, `PatientContract.sol`) as explicit state
structures plus one Lean function per public contract function.  Reverts are
`Except.error`; `msg.sender` and `block.timestamp` are explicit arguments.
Cross-contract `staticcall`/`call` dispatch follows EVM semantics: a call to an
account without code succeeds and returns empty returndata, a call to a
deployed contract that lacks the requested function selector reverts (none of
these contracts declares a fallback), and `abi.decode` of empty returndata
reverts.

Part 2 (further down) embeds the encryption pipeline of `src/ipfs/ipfs.js`.
-/

/-- Ethereum account addresses, modelled as naturals; `0` is `address(0)`. -/
abbrev Address := Nat

/-- A Solidity revert (failed `require` or a failing `abi.decode`), carrying
the require message (the empty message for `abi.decode` failures). -/
inductive SolError where
  | revert (msg : String)
deriving DecidableEq

/-- `MedicContract.MedicalRecord` (MedicContract.sol lines 14-23). -/
structure MedicalRecord where
  cid : String
  fileName : String
  patientId : Address
  diagnosis : String
  treatment : String
  doctorId : Address
  timestamp : Nat
  isActive : Bool
deriving DecidableEq

/-- The zero-initialised `MedicalRecord` (Solidity mapping/array default). -/
def MedicalRecord.zero : MedicalRecord :=
  ⟨"", "", 0, "", "", 0, 0, false⟩

/-- `AdminContract.Doctor` (AdminContract.sol lines 12-19). -/
structure AdminDoctor where
  id : Address
  name : String
  specialization : String
  licenseNumber : String
  isAuthorized : Bool
  registrationDate : Nat
deriving DecidableEq

/-- The zero-initialised `Doctor` record. -/
def AdminDoctor.zero : AdminDoctor := ⟨0, "", "", "", false, 0⟩

/-- `AdminContract.Patient` (AdminContract.sol lines 21-29). -/
structure AdminPatient where
  id : Address
  name : String
  dateOfBirth : String
  phoneNumber : String
  emergencyContact : String
  isActive : Bool
  registrationDate : Nat
deriving DecidableEq

/-- The zero-initialised `Patient` record. -/
def AdminPatient.zero : AdminPatient := ⟨0, "", "", "", "", false, 0⟩

/-- `PatientContract.SelfUploadedRecord` (PatientContract.sol lines 65-72). -/
structure SelfUploadedRecord where
  cid : String
  fileName : String
  recordType : String
  description : String
  timestamp : Nat
  isEncrypted : Bool
deriving DecidableEq

/-- The zero-initialised `SelfUploadedRecord`. -/
def SelfUploadedRecord.zero : SelfUploadedRecord := ⟨"", "", "", "", 0, false⟩

/-- `PatientContract.PatientProfile` (PatientContract.sol lines 74-80). -/
structure PatientProfile where
  name : String
  email : String
  phoneNumber : String
  profileCompleted : Bool
  lastUpdated : Nat
deriving DecidableEq

/-- Storage of `AdminContract` (the Identity Registry). -/
structure AdminState where
  owner : Address
  medicContract : Address
  doctors : Address → AdminDoctor
  patients : Address → AdminPatient
  doctorList : List Address
  patientList : List Address

/-- Storage of `MedicContract` (the Clinical Record Store). -/
structure MedicState where
  owner : Address
  adminContract : Address
  patientContract : Address
  patientRecords : Address → List MedicalRecord
  authorizedDoctors : Address → Bool

/-- Storage of `PatientContract` (the Patient Self-Service Store). -/
structure PatientState where
  medicContract : Address
  adminContract : Address
  patientSelfRecords : Address → List SelfUploadedRecord
  patientProfiles : Address → PatientProfile

/-- A deployment: the three contract instances together with the addresses
they are deployed at (used to resolve cross-contract calls). -/
structure World where
  adminAddr : Address
  medicAddr : Address
  patientAddr : Address
  admin : AdminState
  medic : MedicState
  patient : PatientState

/-- Point update of a Solidity mapping. -/
def setMap {α : Type} (m : Address → α) (k : Address) (v : α) : Address → α :=
  fun a => if a = k then v else m a

/-- Solidity `require(cond, msg)`. -/
def require (cond : Bool) (msg : String) : Except SolError Unit :=
  if cond then .ok () else .error (.revert msg)

/-- Raw `staticcall` of `isPatientActive(address)` against `target`, returning
the EVM success flag and the `bool` the returndata decodes to (`none` when the
returndata is empty or otherwise not a `bool`).  `AdminContract` is the only
contract exposing this selector; `MedicContract`/`PatientContract` revert on
it (unknown selector, no fallback); any other account has no code, so the
call succeeds with empty returndata. -/
def extIsPatientActive (w : World) (target patientId : Address) : Bool × Option Bool :=
  if target = w.adminAddr then (true, some (w.admin.patients patientId).isActive)
  else if target = w.medicAddr then (false, none)
  else if target = w.patientAddr then (false, none)
  else (true, none)

/-- Raw `staticcall` of `isDoctorAuthorized(address)` against `target`.  Both
`AdminContract` and `MedicContract` expose this selector.  `PatientContract`
also has it, but it immediately re-issues the same call to its configured
`medicContract`; a self-referential configuration bottoms out at the EVM call
depth limit as a failed call, which is what the `patientAddr` branch returns. -/
def extIsDoctorAuthorized (w : World) (target caller : Address) : Bool × Option Bool :=
  if target = w.adminAddr then (true, some (w.admin.doctors caller).isAuthorized)
  else if target = w.medicAddr then (true, some (w.medic.authorizedDoctors caller))
  else if target = w.patientAddr then (false, none)
  else (true, none)

/-- `abi.decode(data, (bool))`: reverts when the returndata held no boolean. -/
def decodeBool (data : Option Bool) : Except SolError Bool :=
  match data with
  | some b => .ok b
  | none => .error (.revert "")

/-- `MedicContract._isPatientActive` (MedicContract.sol lines 56-62):
`if (adminContract == address(0)) return false;` then
`return success && abi.decode(data, (bool));` — when the call failed the
conjunction short-circuits to `false`, when it succeeded the returndata is
decoded (which reverts on empty returndata). -/
def MedicContract.isPatientActiveQ (w : World) (patientId : Address) :
    Except SolError Bool :=
  if w.medic.adminContract = 0 then .ok false
  else
    let r := extIsPatientActive w w.medic.adminContract patientId
    if r.1 then decodeBool r.2 else .ok false

/-- `MedicContract.setAdminContract` (lines 64-67), modifier `onlyOwner`. -/
def MedicContract.setAdminContract (w : World) (sender a : Address) :
    Except SolError World := do
  require (sender = w.medic.owner) "Only owner can perform this action"
  .ok { w with medic := { w.medic with adminContract := a } }

/-- `MedicContract.setPatientContract` (lines 69-72), modifier `onlyOwner`. -/
def MedicContract.setPatientContract (w : World) (sender a : Address) :
    Except SolError World := do
  require (sender = w.medic.owner) "Only owner can perform this action"
  .ok { w with medic := { w.medic with patientContract := a } }

/-- `MedicContract.authorizeDoctor` (lines 74-76), modifier `onlyAdmin`
(`msg.sender == adminContract || msg.sender == owner`). -/
def MedicContract.authorizeDoctor (w : World) (sender d : Address) :
    Except SolError World := do
  require (sender = w.medic.adminContract || sender = w.medic.owner)
    "Only admin can perform this action"
  .ok { w with medic :=
    { w.medic with authorizedDoctors := setMap w.medic.authorizedDoctors d true } }

/-- `MedicContract.revokeDoctor` (lines 78-80), modifier `onlyAdmin`. -/
def MedicContract.revokeDoctor (w : World) (sender d : Address) :
    Except SolError World := do
  require (sender = w.medic.adminContract || sender = w.medic.owner)
    "Only admin can perform this action"
  .ok { w with medic :=
    { w.medic with authorizedDoctors := setMap w.medic.authorizedDoctors d false } }

/-- `MedicContract.addMedicalRecord` (lines 81-101).  Modifiers run in order:
`onlyAuthorizedDoctor` checks only the local `authorizedDoctors` cache, then
`patientActive(_patientId)` performs the live query against `adminContract`.
The body pushes a record with `doctorId = msg.sender`,
`timestamp = block.timestamp`, `isActive = true`.  There is no check on
`_cid`. -/
def MedicContract.addMedicalRecord (w : World) (sender : Address)
    (cid fileName : String) (patientId : Address) (diagnosis treatment : String)
    (now : Nat) : Except SolError World := do
  require (w.medic.authorizedDoctors sender) "Not an authorized medical provider"
  let active ← MedicContract.isPatientActiveQ w patientId
  require active "Patient not active"
  let rec0 : MedicalRecord :=
    ⟨cid, fileName, patientId, diagnosis, treatment, sender, now, true⟩
  .ok { w with medic :=
    { w.medic with patientRecords := (setMap w.medic.patientRecords patientId
          (w.medic.patientRecords patientId ++ [rec0])) } }

/-- `MedicContract.deactivateRecord` (lines 103-111): only the record's
creator may clear its `isActive` flag; nothing else is modified. -/
def MedicContract.deactivateRecord (w : World) (sender patientId : Address)
    (idx : Nat) : Except SolError World := do
  require (w.medic.authorizedDoctors sender) "Not an authorized medical provider"
  require (idx < (w.medic.patientRecords patientId).length) "Invalid record index"
  let r := (w.medic.patientRecords patientId).getD idx MedicalRecord.zero
  require (r.doctorId = sender) "Only record creator can deactivate"
  .ok { w with medic :=
    { w.medic with patientRecords := (setMap w.medic.patientRecords patientId
          ((w.medic.patientRecords patientId).set idx { r with isActive := false })) } }

/-- `MedicContract.getMedicalRecords` (lines 113-116). -/
def MedicContract.getMedicalRecords (w : World) (sender patientId : Address) :
    Except SolError (List MedicalRecord) := do
  require (sender = patientId || sender = w.medic.adminContract ||
      w.medic.authorizedDoctors sender) "Unauthorized access"
  .ok (w.medic.patientRecords patientId)

/-- `MedicContract.getActiveMedicalRecords` (lines 118-138).  The source
counts the active records and copies them in order into a fresh array, which
is exactly `List.filter (isActive)`. -/
def MedicContract.getActiveMedicalRecords (w : World) (sender patientId : Address) :
    Except SolError (List MedicalRecord) := do
  require (sender = patientId || sender = w.medic.patientContract ||
      w.medic.authorizedDoctors sender) "Unauthorized access"
  .ok ((w.medic.patientRecords patientId).filter (fun r => r.isActive))

/-- Low-level `medicContract.call(abi.encodeWithSignature("authorizeDoctor(address)", d))`
issued by `AdminContract` (so the inner `msg.sender` is the registry's own
address).  Dispatch follows the same EVM rules as the staticcall helpers. -/
def callAuthorizeDoctor (w : World) (target d : Address) : Bool × World :=
  if target = w.medicAddr then
    match MedicContract.authorizeDoctor w w.adminAddr d with
    | .ok w2 => (true, w2)
    | .error _ => (false, w)
  else if target = w.patientAddr then (false, w)
  else if target = w.adminAddr then (false, w)
  else (true, w)

/-- Low-level `medicContract.call(abi.encodeWithSignature("revokeDoctor(address)", d))`
issued by `AdminContract`. -/
def callRevokeDoctor (w : World) (target d : Address) : Bool × World :=
  if target = w.medicAddr then
    match MedicContract.revokeDoctor w w.adminAddr d with
    | .ok w2 => (true, w2)
    | .error _ => (false, w)
  else if target = w.patientAddr then (false, w)
  else if target = w.adminAddr then (false, w)
  else (true, w)

/-- `AdminContract.registerDoctor` (AdminContract.sol lines 58-86): owner
only; rejects an already-authorized id and the zero address; stores the
doctor, appends to `doctorList`, and — only when `medicContract` is set —
pushes `authorizeDoctor` downstream, requiring the push to succeed. -/
def AdminContract.registerDoctor (w : World) (sender d : Address)
    (name specialization licenseNumber : String) (now : Nat) :
    Except SolError World := do
  require (sender = w.admin.owner) "Only owner can perform this action"
  require (!(w.admin.doctors d).isAuthorized) "Doctor already registered"
  require (d ≠ 0) "Invalid doctor address"
  let w1 := { w with admin :=
    { w.admin with
        doctors := (setMap w.admin.doctors d ⟨d, name, specialization, licenseNumber, true, now⟩),
        doctorList := w.admin.doctorList ++ [d] } }
  if w1.admin.medicContract ≠ 0 then
    let r := callAuthorizeDoctor w1 w1.admin.medicContract d
    require r.1 "Failed to authorize doctor in medic contract"
    .ok r.2
  else
    .ok w1

/-- `AdminContract.revokeDoctor` (lines 88-101): owner only, modifier
`doctorExists` (the doctor must currently be authorized); clears the flag and
— only when `medicContract` is set — pushes `revokeDoctor` downstream,
requiring the push to succeed. -/
def AdminContract.revokeDoctor (w : World) (sender d : Address) :
    Except SolError World := do
  require (sender = w.admin.owner) "Only owner can perform this action"
  require ((w.admin.doctors d).isAuthorized) "Doctor does not exist or is not authorized"
  let w1 := { w with admin :=
    { w.admin with doctors := (setMap w.admin.doctors d
        { w.admin.doctors d with isAuthorized := false }) } }
  if w1.admin.medicContract ≠ 0 then
    let r := callRevokeDoctor w1 w1.admin.medicContract d
    require r.1 "Failed to revoke doctor in medic contract"
    .ok r.2
  else
    .ok w1

/-- `AdminContract.registerPatient` (lines 115-138). -/
def AdminContract.registerPatient (w : World) (sender p : Address)
    (name dateOfBirth phoneNumber emergencyContact : String) (now : Nat) :
    Except SolError World := do
  require (sender = w.admin.owner) "Only owner can perform this action"
  require (!(w.admin.patients p).isActive) "Patient already registered"
  require (p ≠ 0) "Invalid patient address"
  .ok { w with admin :=
    { w.admin with
        patients := (setMap w.admin.patients p
          ⟨p, name, dateOfBirth, phoneNumber, emergencyContact, true, now⟩),
        patientList := w.admin.patientList ++ [p] } }

/-- `AdminContract.deactivatePatient` (lines 140-143). -/
def AdminContract.deactivatePatient (w : World) (sender p : Address) :
    Except SolError World := do
  require (sender = w.admin.owner) "Only owner can perform this action"
  require ((w.admin.patients p).isActive) "Patient does not exist or is not active"
  .ok { w with admin :=
    { w.admin with patients := (setMap w.admin.patients p
        { w.admin.patients p with isActive := false }) } }

/-- `AdminContract.isPatientActive` (lines 216-218), a pure view. -/
def AdminContract.isPatientActiveView (w : World) (p : Address) : Bool :=
  (w.admin.patients p).isActive

/-- `MedicContract.isDoctorAuthorized` (lines 140-142), a pure view of the
local cache. -/
def MedicContract.isDoctorAuthorizedView (w : World) (d : Address) : Bool :=
  w.medic.authorizedDoctors d

/-- `PatientContract.isDoctorAuthorized` (part_003 lines 110-118): guarded by
`medicContract != address(0)`, then `success && abi.decode(data, (bool))`
against the configured `medicContract`; returns `false` when unset. -/
def PatientContract.isDoctorAuthorized (w : World) (caller : Address) :
    Except SolError Bool :=
  if w.patient.medicContract ≠ 0 then
    let r := extIsDoctorAuthorized w w.patient.medicContract caller
    if r.1 then decodeBool r.2 else .ok false
  else .ok false

/-- `PatientContract.isPatientRegistered` (part_003 lines 120-125): issues the
staticcall against `adminContract` with NO null-address guard (unlike its
siblings `isDoctorAuthorized` and `_isPatientActiveInAdmin`), then
`success && abi.decode(data, (bool))`. -/
def PatientContract.isPatientRegistered (w : World) (patientId : Address) :
    Except SolError Bool :=
  let r := extIsPatientActive w w.patient.adminContract patientId
  if r.1 then decodeBool r.2 else .ok false

/-- `PatientContract._isPatientActiveInAdmin` (part_003 lines 127-135): the
sibling of `isPatientRegistered` that does carry the null-address guard. -/
def PatientContract.isPatientActiveInAdmin (w : World) (patientId : Address) :
    Except SolError Bool :=
  if w.patient.adminContract ≠ 0 then
    let r := extIsPatientActive w w.patient.adminContract patientId
    if r.1 then decodeBool r.2 else .ok false
  else .ok false

/-- `PatientContract.updateProfile` (part_003 lines 139-150), modifier
`onlyPatient`; never touches `profileCompleted`. -/
def PatientContract.updateProfile (w : World) (sender : Address)
    (name email phoneNumber : String) (now : Nat) : Except SolError World := do
  let reg ← PatientContract.isPatientRegistered w sender
  require reg "Patient not registered"
  let old := w.patient.patientProfiles sender
  .ok { w with patient :=
    { w.patient with patientProfiles := (setMap w.patient.patientProfiles sender
        { old with name := name, email := email, phoneNumber := phoneNumber,
                   lastUpdated := now }) } }

/-- `PatientContract.uploadSelfRecord` (part_003 lines 153-174), modifier
`onlyPatient`; rejects empty `_cid`/`_fileName`; always stores
`isEncrypted = true`. -/
def PatientContract.uploadSelfRecord (w : World) (sender : Address)
    (cid fileName recordType description : String) (now : Nat) :
    Except SolError World := do
  let reg ← PatientContract.isPatientRegistered w sender
  require reg "Patient not registered"
  require (cid ≠ "") "CID cannot be empty"
  require (fileName ≠ "") "File name cannot be empty"
  let rec0 : SelfUploadedRecord := ⟨cid, fileName, recordType, description, now, true⟩
  .ok { w with patient :=
    { w.patient with patientSelfRecords := (setMap w.patient.patientSelfRecords sender
        (w.patient.patientSelfRecords sender ++ [rec0])) } }

/-- `PatientContract.getMySelfRecords` (part_003 lines 177-179), modifier
`onlyPatient`, caller-scoped. -/
def PatientContract.getMySelfRecords (w : World) (sender : Address) :
    Except SolError (List SelfUploadedRecord) := do
  let reg ← PatientContract.isPatientRegistered w sender
  require reg "Patient not registered"
  .ok (w.patient.patientSelfRecords sender)

/-- `PatientContract.getPatientProfile` (part_003 lines 205-208): the only
guard is the modifier `onlyValidPatient(patientId)` — the queried patient must
be registered; the caller is never inspected. -/
def PatientContract.getPatientProfile (w : World) (sender patientId : Address) :
    Except SolError PatientProfile := do
  let reg ← PatientContract.isPatientRegistered w patientId
  require reg "Patient not registered"
  .ok (w.patient.patientProfiles patientId)

/-- `PatientContract.deleteSelfRecord` (part_003 lines 216-225): bounds check,
then swap-with-last and `pop`. -/
def PatientContract.deleteSelfRecord (w : World) (sender : Address) (idx : Nat) :
    Except SolError World := do
  let reg ← PatientContract.isPatientRegistered w sender
  require reg "Patient not registered"
  let recs := w.patient.patientSelfRecords sender
  require (idx < recs.length) "Record index out of bounds"
  let lastIndex := recs.length - 1
  let recs1 := if idx ≠ lastIndex
    then recs.set idx (recs.getD lastIndex SelfUploadedRecord.zero)
    else recs
  .ok { w with patient :=
    { w.patient with patientSelfRecords := (setMap w.patient.patientSelfRecords sender
        recs1.dropLast) } }

/-- The state right after the migration scripts deploy the three contracts:
`owner = deployer` in both owned contracts, all mappings zero-initialised,
`AdminContract.medicContract` and `MedicContract.adminContract`/`patientContract`
unset, and `PatientContract` constructed with the two addresses passed to its
constructor. -/
def initWorld (adminAddr medicAddr patientAddr deployer pMedic pAdmin : Address) :
    World :=
  { adminAddr := adminAddr
    medicAddr := medicAddr
    patientAddr := patientAddr
    admin :=
      { owner := deployer
        medicContract := 0
        doctors := fun _ => AdminDoctor.zero
        patients := fun _ => AdminPatient.zero
        doctorList := []
        patientList := [] }
    medic :=
      { owner := deployer
        adminContract := 0
        patientContract := 0
        patientRecords := fun _ => []
        authorizedDoctors := fun _ => false }
    patient :=
      { medicContract := pMedic
        adminContract := pAdmin
        patientSelfRecords := fun _ => []
        patientProfiles := fun _ => ⟨"", "", "", false, 0⟩ } }

/-- Reachability: a world is reachable when it arises from a fresh deployment
by a finite sequence of successful public transactions (any sender, any
arguments, any block timestamps). -/
inductive Reach : World → Prop where
  | init (adminAddr medicAddr patientAddr deployer pMedic pAdmin : Address) :
      Reach (initWorld adminAddr medicAddr patientAddr deployer pMedic pAdmin)
  | medicSetAdmin {w w2 : World} (sender a : Address) : Reach w →
      MedicContract.setAdminContract w sender a = .ok w2 → Reach w2
  | medicSetPatient {w w2 : World} (sender a : Address) : Reach w →
      MedicContract.setPatientContract w sender a = .ok w2 → Reach w2
  | medicAuthorize {w w2 : World} (sender d : Address) : Reach w →
      MedicContract.authorizeDoctor w sender d = .ok w2 → Reach w2
  | medicRevoke {w w2 : World} (sender d : Address) : Reach w →
      MedicContract.revokeDoctor w sender d = .ok w2 → Reach w2
  | medicAddRecord {w w2 : World} (sender : Address) (cid fileName : String)
      (patientId : Address) (diagnosis treatment : String) (now : Nat) : Reach w →
      MedicContract.addMedicalRecord w sender cid fileName patientId diagnosis
        treatment now = .ok w2 → Reach w2
  | medicDeactivate {w w2 : World} (sender patientId : Address) (idx : Nat) : Reach w →
      MedicContract.deactivateRecord w sender patientId idx = .ok w2 → Reach w2
  | adminRegisterDoctor {w w2 : World} (sender d : Address)
      (name specialization licenseNumber : String) (now : Nat) : Reach w →
      AdminContract.registerDoctor w sender d name specialization licenseNumber
        now = .ok w2 → Reach w2
  | adminRevokeDoctor {w w2 : World} (sender d : Address) : Reach w →
      AdminContract.revokeDoctor w sender d = .ok w2 → Reach w2
  | adminRegisterPatient {w w2 : World} (sender p : Address)
      (name dateOfBirth phoneNumber emergencyContact : String) (now : Nat) : Reach w →
      AdminContract.registerPatient w sender p name dateOfBirth phoneNumber
        emergencyContact now = .ok w2 → Reach w2
  | adminDeactivatePatient {w w2 : World} (sender p : Address) : Reach w →
      AdminContract.deactivatePatient w sender p = .ok w2 → Reach w2
  | patientUpdateProfile {w w2 : World} (sender : Address)
      (name email phoneNumber : String) (now : Nat) : Reach w →
      PatientContract.updateProfile w sender name email phoneNumber now = .ok w2 →
      Reach w2
  | patientUpload {w w2 : World} (sender : Address)
      (cid fileName recordType description : String) (now : Nat) : Reach w →
      PatientContract.uploadSelfRecord w sender cid fileName recordType
        description now = .ok w2 → Reach w2
  | patientDelete {w w2 : World} (sender : Address) (idx : Nat) : Reach w →
      PatientContract.deleteSelfRecord w sender idx = .ok w2 → Reach w2

/-!
Part 2: the encryption pipeline of `src/ipfs/ipfs.js`.

Byte buffers are `List Nat` (each entry a byte value).  The pipeline calls
four node `crypto` primitives — `crypto.createHash('sha256')`,
`crypto.pbkdf2Sync`, and the AES-256-GCM cipher/decipher pair — which are
external library code, not repository code.  They are modelled as an explicit
parameter structure `CryptoPrims`, at exactly the granularity the source
invokes them; the cryptographic behaviour a theorem relies on (AEAD
round-trip, AEAD rejection of a wrong key or altered input) is stated as an
explicit hypothesis at the instance it is used, never baked in.  Randomness
(`crypto.randomBytes`) is passed in as the `salt`/`iv` arguments.
-/

/-- The external `crypto` primitives used by `src/ipfs/ipfs.js`. -/
structure CryptoPrims where
  /-- `crypto.createHash('sha256').update(s).digest('hex')`. -/
  sha256hex : String → String
  /-- `crypto.pbkdf2Sync(passphrase, salt, 100000, 32, 'sha256')`. -/
  pbkdf2 : String → List Nat → List Nat
  /-- The AES-256-GCM encryption path:
  `createCipheriv('aes-256-gcm', key, iv, 16)` + `setAAD` + `update`/`final` +
  `getAuthTag`, returning `(ciphertext, authTag)`. -/
  gcmEncrypt : List Nat → List Nat → List Nat → List Nat → List Nat × List Nat
  /-- The AES-256-GCM decryption path:
  `createDecipheriv` + `setAAD` + `setAuthTag` + `update`/`final`; `none` when
  `final()` throws because tag verification failed. -/
  gcmDecrypt : List Nat → List Nat → List Nat → List Nat → List Nat →
    Option (List Nat)

/-- The fixed associated data `Buffer.from('medical-record')` (ASCII bytes). -/
def aadBytes : List Nat := "medical-record".toList.map Char.toNat

/-- The secret actually used: JavaScript
`process.env.ENCRYPTION_SECRET || 'default-secret-change-in-production'`
falls back to the built-in default when the variable is unset or empty
(both are falsy). -/
def secretOrDefault (env : Option String) : String :=
  match env with
  | some s => if s = "" then "default-secret-change-in-production" else s
  | none => "default-secret-change-in-production"

/-- `generateEncryptionKey` (ipfs.js lines 136-141):
`sha256(secret + patientId)` as a hex string. -/
def generateEncryptionKey (prims : CryptoPrims) (env : Option String)
    (patientId : String) : String :=
  prims.sha256hex (secretOrDefault env ++ patientId)

/-- `encryptContent` (ipfs.js lines 59-92): derive
`key = pbkdf2(encryptionKey, salt)`, AES-256-GCM encrypt with AAD
`'medical-record'`, and emit the flat package `salt ‖ iv ‖ authTag ‖
ciphertext`.  The fresh random `salt` and `iv` (16 bytes each) are explicit
arguments. -/
def encryptContent (prims : CryptoPrims) (fileBuffer : List Nat)
    (encryptionKey : String) (salt iv : List Nat) : List Nat :=
  let key := prims.pbkdf2 encryptionKey salt
  let r := prims.gcmEncrypt key iv aadBytes fileBuffer
  salt ++ iv ++ r.2 ++ r.1

/-- The errors of the pipeline's decryption path. -/
inductive CryptoErr where
  | decryptionFailed
deriving DecidableEq

/-- `decryptContent` (ipfs.js lines 100-128): split the package as
`slice(0,16)/slice(16,32)/slice(32,48)/slice(48)`, re-derive the key from the
packaged salt, run the GCM decipher; any cipher failure is reported as the
single `Decryption failed` error. -/
def decryptContent (prims : CryptoPrims) (pkg : List Nat)
    (encryptionKey : String) : Except CryptoErr (List Nat) :=
  let salt := pkg.take 16
  let iv := (pkg.drop 16).take 16
  let authTag := ((pkg.drop 32).take 16)
  let ciphertext := pkg.drop 48
  let key := prims.pbkdf2 encryptionKey salt
  match prims.gcmDecrypt key iv aadBytes ciphertext authTag with
  | some pt => .ok pt
  | none => .error .decryptionFailed

/-- Mixing of a byte list into one natural (base 2^64 positional fold). -/
def encNats (l : List Nat) : Nat :=
  l.foldl (fun a b => a * 18446744073709551616 + b) 1

/-- Mixing of a string into one natural (positional fold over its scalars). -/
def encString (s : String) : Nat :=
  s.toList.foldl (fun a c => a * 1114112 + c.toNat) 1

/-- Tag of the concrete AEAD stand-in below: 16 entries that record the key,
iv, associated data and ciphertext the tag was produced over. -/
def demoTag (k iv aad ct : List Nat) : List Nat :=
  encNats k :: encNats iv :: encNats aad :: encNats ct :: List.replicate 12 0

/-- A concrete, executable stand-in for the external crypto primitives, used
only to instantiate witnesses and counterexamples at concrete inputs:
identity hash, mixing KDF, and an identity cipher whose tag authenticates
key, iv, associated data and ciphertext. -/
def demoPrims : CryptoPrims where
  sha256hex := fun s => s
  pbkdf2 := fun pass salt => encString pass :: encNats salt :: List.replicate 30 0
  gcmEncrypt := fun k iv aad pt => (pt, demoTag k iv aad pt)
  gcmDecrypt := fun k iv aad ct tag =>
    if tag = demoTag k iv aad ct then some ct else none

/-- The ciphertext an `encryptContent` call produces. -/
def encCt (prims : CryptoPrims) (ekey : String) (salt iv P : List Nat) : List Nat :=
  (prims.gcmEncrypt (prims.pbkdf2 ekey salt) iv aadBytes P).1

/-- The auth tag an `encryptContent` call produces. -/
def encTag (prims : CryptoPrims) (ekey : String) (salt iv P : List Nat) : List Nat :=
  (prims.gcmEncrypt (prims.pbkdf2 ekey salt) iv aadBytes P).2

/-- `encryptContent` emits exactly the flat package `salt ‖ iv ‖ tag ‖ ct`. -/
theorem encryptContent_eq (prims : CryptoPrims) (P : List Nat) (ekey : String)
    (salt iv : List Nat) :
    encryptContent prims P ekey salt iv =
      salt ++ iv ++ encTag prims ekey salt iv P ++ encCt prims ekey salt iv P := rfl

/-- Splitting the flat package `salt ‖ iv ‖ tag ‖ ct`: `decryptContent`
re-derives the key from the packaged salt and runs the GCM decipher on
exactly the packaged iv, ciphertext and tag. -/
theorem decryptContent_parts (prims : CryptoPrims) (ekey : String)
    (salt iv tag ct : List Nat) (hs : salt.length = 16) (hiv : iv.length = 16)
    (htag : tag.length = 16) :
    decryptContent prims (salt ++ iv ++ tag ++ ct) ekey =
      match prims.gcmDecrypt (prims.pbkdf2 ekey salt) iv aadBytes ct tag with
      | some pt => .ok pt
      | none => .error .decryptionFailed := by
  unfold decryptContent
  rw [List.append_assoc, List.append_assoc]
  have h1 : (salt ++ (iv ++ (tag ++ ct))).take 16 = salt := List.take_left' hs
  have hd1 : (salt ++ (iv ++ (tag ++ ct))).drop 16 = iv ++ (tag ++ ct) :=
    List.drop_left' hs
  have hd2 : (salt ++ (iv ++ (tag ++ ct))).drop 32 = tag ++ ct := by
    rw [show (32 : Nat) = 16 + 16 from rfl, ← List.drop_drop, hd1]
    exact List.drop_left' hiv
  have hd3 : (salt ++ (iv ++ (tag ++ ct))).drop 48 = ct := by
    rw [show (48 : Nat) = 32 + 16 from rfl, ← List.drop_drop, hd2]
    exact List.drop_left' htag
  rw [h1, hd1, hd2, hd3, List.take_left' hiv, List.take_left' htag]

/-- C2: for every byte payload `P` and subject identifier `S`, decrypting the
package produced by `encryptContent` for `S` with the key for the same `S`
(same process-wide secret) returns exactly `P`.  The behaviour of the
external node `crypto` AEAD is captured by the hypothesis `hgcm` — the
documented AES-GCM round-trip contract at this very instance; `hs`/`hiv` say
the salt and iv are the 16 random bytes the source draws, `htag` that the
cipher's tag is 16 bytes (`authTagLength: 16`). -/
theorem C2_encrypt_decrypt_roundtrip (prims : CryptoPrims) (env : Option String)
    (P : List Nat) (S : String) (salt iv : List Nat) (ekey : String)
    (hekey : ekey = generateEncryptionKey prims env S)
    (hs : salt.length = 16) (hiv : iv.length = 16)
    (htag : (encTag prims ekey salt iv P).length = 16)
    (hgcm : prims.gcmDecrypt (prims.pbkdf2 ekey salt) iv aadBytes
      (encCt prims ekey salt iv P) (encTag prims ekey salt iv P) = some P) :
    decryptContent prims (encryptContent prims P ekey salt iv) ekey = .ok P := by
  rw [encryptContent_eq,
    decryptContent_parts prims ekey salt iv _ _ hs hiv htag, hgcm]

/-- Witness for C2 at a concrete payload, subject and randomness. -/
theorem C2_witness :
    decryptContent demoPrims
      (encryptContent demoPrims [10, 20, 30] (generateEncryptionKey demoPrims (some "sec") "0xP")
        (List.replicate 16 1) (List.replicate 16 2))
      (generateEncryptionKey demoPrims (some "sec") "0xP") = .ok [10, 20, 30] :=
  C2_encrypt_decrypt_roundtrip demoPrims (some "sec") [10, 20, 30] "0xP"
    (List.replicate 16 1) (List.replicate 16 2) _ rfl (by decide) (by decide)
    (by decide) (by decide)

/-- C4: cross-subject isolation.  Encrypt under subject `S1`, decrypt under a
different subject `S2`: the decipher re-derives the key from `S2`'s
passphrase and the packaged salt, and AEAD authenticity — hypothesis `hgcm`,
the AES-GCM guarantee that tag verification under the wrong key fails at this
instance — makes `decryptContent` report `DecryptionFailed`; no plaintext is
returned. -/
theorem C4_cross_subject_isolation (prims : CryptoPrims) (env : Option String)
    (P : List Nat) (S1 S2 : String) (salt iv : List Nat) (ekey1 ekey2 : String)
    (hekey1 : ekey1 = generateEncryptionKey prims env S1)
    (hekey2 : ekey2 = generateEncryptionKey prims env S2)
    (hne : S1 ≠ S2)
    (hs : salt.length = 16) (hiv : iv.length = 16)
    (htag : (encTag prims ekey1 salt iv P).length = 16)
    (hgcm : prims.gcmDecrypt (prims.pbkdf2 ekey2 salt) iv aadBytes
      (encCt prims ekey1 salt iv P) (encTag prims ekey1 salt iv P) = none) :
    decryptContent prims (encryptContent prims P ekey1 salt iv) ekey2 =
      .error .decryptionFailed := by
  rw [encryptContent_eq,
    decryptContent_parts prims ekey2 salt iv _ _ hs hiv htag, hgcm]

/-- Witness for C4 at two concrete distinct subjects. -/
theorem C4_witness :
    decryptContent demoPrims
      (encryptContent demoPrims [10, 20, 30] (generateEncryptionKey demoPrims (some "sec") "0xA")
        (List.replicate 16 1) (List.replicate 16 2))
      (generateEncryptionKey demoPrims (some "sec") "0xB") = .error .decryptionFailed :=
  C4_cross_subject_isolation demoPrims (some "sec") [10, 20, 30] "0xA" "0xB"
    (List.replicate 16 1) (List.replicate 16 2) _ _ rfl rfl (by decide) (by decide)
    (by decide) (by decide) (by decide)

/-- `getD` on the left part of an append. -/
theorem getD_append_left {α : Type} {a b : List α} {i : Nat} (d : α)
    (h : i < a.length) : (a ++ b).getD i d = a.getD i d := by
  rw [List.getD_eq_getElem?_getD, List.getElem?_append_left h,
    ← List.getD_eq_getElem?_getD]

/-- `getD` on the right part of an append. -/
theorem getD_append_right {α : Type} {a b : List α} {i : Nat} (d : α)
    (h : a.length ≤ i) : (a ++ b).getD i d = b.getD (i - a.length) d := by
  rw [List.getD_eq_getElem?_getD, List.getElem?_append_right h,
    ← List.getD_eq_getElem?_getD]

/-- `set` inside the left part of an append. -/
theorem set_append_left {α : Type} {a b : List α} {i : Nat} (x : α)
    (h : i < a.length) : (a ++ b).set i x = a.set i x ++ b := by
  rw [List.set_append, if_pos h]

/-- `set` inside the right part of an append. -/
theorem set_append_right {α : Type} {a b : List α} {i : Nat} (x : α)
    (h : a.length ≤ i) : (a ++ b).set i x = a ++ b.set (i - a.length) x := by
  rw [List.set_append, if_neg (Nat.not_lt.2 h)]

/-- C5: tamper detection.  Flipping any single byte of a produced package —
in the salt, iv, auth-tag or ciphertext region — makes `decryptContent` fail
with `DecryptionFailed` and release no plaintext.  The AEAD authenticity of
the external cipher (AES-GCM tag verification rejects a key derived from an
altered salt, an altered iv, an altered tag and an altered ciphertext) is
captured by the four hypotheses `hsalt`/`hivr`/`htgr`/`hctr`, one per region
the flipped byte can fall into, each stated at this very package. -/
theorem C5_tamper_detection (prims : CryptoPrims) (env : Option String)
    (P : List Nat) (S : String) (salt iv : List Nat) (ekey : String)
    (tag ct : List Nat) (i b : Nat)
    (hekey : ekey = generateEncryptionKey prims env S)
    (htg : tag = encTag prims ekey salt iv P)
    (hct : ct = encCt prims ekey salt iv P)
    (hs : salt.length = 16) (hiv : iv.length = 16) (htag : tag.length = 16)
    (hi : i < (salt ++ iv ++ tag ++ ct).length)
    (hb : b < 256) (hbne : b ≠ (salt ++ iv ++ tag ++ ct).getD i 0)
    (hsalt : i < 16 →
      prims.gcmDecrypt (prims.pbkdf2 ekey (salt.set i b)) iv aadBytes ct tag = none)
    (hivr : 16 ≤ i → i < 32 →
      prims.gcmDecrypt (prims.pbkdf2 ekey salt) (iv.set (i - 16) b) aadBytes ct tag = none)
    (htgr : 32 ≤ i → i < 48 →
      prims.gcmDecrypt (prims.pbkdf2 ekey salt) iv aadBytes ct (tag.set (i - 32) b) = none)
    (hctr : 48 ≤ i →
      prims.gcmDecrypt (prims.pbkdf2 ekey salt) iv aadBytes (ct.set (i - 48) b) tag = none) :
    decryptContent prims ((encryptContent prims P ekey salt iv).set i b) ekey =
      .error .decryptionFailed := by
  rw [encryptContent_eq, ← htg, ← hct, List.append_assoc, List.append_assoc]
  rw [List.append_assoc, List.append_assoc] at hi
  have hlen : (salt ++ (iv ++ (tag ++ ct))).length = 48 + ct.length := by
    simp only [List.length_append, hs, hiv, htag]
    omega
  by_cases h1 : i < 16
  · have hsl : i < salt.length := by omega
    rw [set_append_left b hsl]
    have hlenS : (salt.set i b).length = 16 := by rw [List.length_set]; exact hs
    have hparts := decryptContent_parts prims ekey (salt.set i b) iv tag ct hlenS hiv htag
    rw [List.append_assoc, List.append_assoc] at hparts
    rw [hparts, hsalt h1]
  · have hsl : salt.length ≤ i := by omega
    rw [set_append_right b hsl, hs]
    by_cases h2 : i - 16 < 16
    · have hil : i - 16 < iv.length := by omega
      rw [set_append_left b hil]
      have hlenI : (iv.set (i - 16) b).length = 16 := by rw [List.length_set]; exact hiv
      have hparts := decryptContent_parts prims ekey salt (iv.set (i - 16) b) tag ct hs hlenI htag
      rw [List.append_assoc, List.append_assoc] at hparts
      rw [hparts, hivr (by omega) (by omega)]
    · have hil : iv.length ≤ i - 16 := by omega
      rw [set_append_right b hil, hiv]
      by_cases h3 : i - 16 - 16 < 16
      · have htl : i - 16 - 16 < tag.length := by omega
        rw [set_append_left b htl]
        have e3 : i - 16 - 16 = i - 32 := by omega
        rw [e3]
        have hlenT : (tag.set (i - 32) b).length = 16 := by
          rw [List.length_set]; exact htag
        have hparts := decryptContent_parts prims ekey salt iv (tag.set (i - 32) b) ct hs hiv hlenT
        rw [List.append_assoc, List.append_assoc] at hparts
        rw [hparts, htgr (by omega) (by omega)]
      · have htl : tag.length ≤ i - 16 - 16 := by omega
        rw [set_append_right b htl, htag]
        have e4 : i - 16 - 16 - 16 = i - 48 := by omega
        rw [e4]
        have hparts := decryptContent_parts prims ekey salt iv tag (ct.set (i - 48) b) hs hiv htag
        rw [List.append_assoc, List.append_assoc] at hparts
        rw [hparts, hctr (by omega)]

set_option maxRecDepth 4096 in
/-- Witness for C5: flipping byte 50 (ciphertext region) of a concrete
package makes decryption fail. -/
theorem C5_witness :
    decryptContent demoPrims
      ((encryptContent demoPrims [10, 20, 30] (generateEncryptionKey demoPrims (some "sec") "0xT")
          (List.replicate 16 1) (List.replicate 16 2)).set 50 99)
      (generateEncryptionKey demoPrims (some "sec") "0xT") = .error .decryptionFailed :=
  C5_tamper_detection demoPrims (some "sec") [10, 20, 30] "0xT"
    (List.replicate 16 1) (List.replicate 16 2) _ _ _ 50 99 rfl rfl rfl
    (by decide) (by decide) (by decide) (by decide) (by decide) (by decide)
    (by decide) (by decide) (by decide) (by decide)

/-- A known-ok `Except` step feeds its value to the continuation. -/
theorem okBind {α β : Type} (a : α) (f : α → Except SolError β) :
    (Except.ok a >>= f) = f a := rfl

/-- A passing `require` yields `ok`. -/
theorem require_true (msg : String) : require true msg = .ok () := rfl

/-- A failing `require` reverts. -/
theorem require_false (msg : String) : require false msg = .error (.revert msg) := rfl

/-- When the self-service store's `adminContract` points at the deployed
Identity Registry, `isPatientRegistered` returns the registry's `isActive`
flag for the queried patient. -/
theorem isPatientRegistered_wired (w : World) (p : Address)
    (hadm : w.patient.adminContract = w.adminAddr) :
    PatientContract.isPatientRegistered w p = .ok (w.admin.patients p).isActive := by
  unfold PatientContract.isPatientRegistered extIsPatientActive
  rw [hadm]
  simp [decodeBool]

/-- C6 (amended): when the process-wide secret is absent — the environment
variable unset, or set to the empty string (both falsy to JavaScript `||`) —
`generateEncryptionKey` silently substitutes the built-in default passphrase
`'default-secret-change-in-production'` and key generation proceeds; absence
is never fatal. -/
theorem C6_default_secret_fallback (prims : CryptoPrims) (S : String) :
    generateEncryptionKey prims none S =
      prims.sha256hex ("default-secret-change-in-production" ++ S) ∧
    generateEncryptionKey prims (some "") S =
      prims.sha256hex ("default-secret-change-in-production" ++ S) :=
  ⟨rfl, rfl⟩

set_option maxRecDepth 4096 in
/-- Counterexample to C6 as stated: with the secret absent from the
environment, an encryption followed by a decryption proceeds and succeeds —
nothing fails at the moment the operation is attempted. -/
theorem C6_counterexample :
    decryptContent demoPrims
      (encryptContent demoPrims [1, 2, 3] (generateEncryptionKey demoPrims none "0xP")
        (List.replicate 16 1) (List.replicate 16 2))
      (generateEncryptionKey demoPrims none "0xP") = .ok [1, 2, 3] := rfl

/-- C10: the Self-Service Store's `getPatientProfile(p)` succeeds for every
caller `c` whatsoever — including addresses that are neither the patient, a
doctor, nor the registry — whenever the Identity Registry reports `p`
active; the caller argument is never inspected. -/
theorem C10_getPatientProfile_no_caller_auth (w : World) (c p : Address)
    (hadm : w.patient.adminContract = w.adminAddr)
    (hact : (w.admin.patients p).isActive = true) :
    PatientContract.getPatientProfile w c p = .ok (w.patient.patientProfiles p) := by
  unfold PatientContract.getPatientProfile
  rw [isPatientRegistered_wired w p hadm, hact, okBind, require_true, okBind]

/-- A concrete wired deployment: registry at 10, record store at 11,
self-service store at 12, owner 1, doctor 2 authorized everywhere, patient 3
active with a stored profile. -/
def demoWorld : World where
  adminAddr := 10
  medicAddr := 11
  patientAddr := 12
  admin :=
    { owner := 1
      medicContract := 11
      doctors := fun a => if a = 2 then ⟨2, "Dr. Smith", "Cardiology", "LIC1", true, 5⟩
        else AdminDoctor.zero
      patients := fun a => if a = 3 then ⟨3, "Alice", "1990-01-01", "123", "Bob", true, 6⟩
        else AdminPatient.zero
      doctorList := [2]
      patientList := [3] }
  medic :=
    { owner := 1
      adminContract := 10
      patientContract := 12
      patientRecords := fun _ => []
      authorizedDoctors := fun a => a == 2 }
  patient :=
    { medicContract := 11
      adminContract := 10
      patientSelfRecords := fun _ => []
      patientProfiles := fun a => if a = 3 then ⟨"Alice", "alice@mail", "123", false, 7⟩
        else ⟨"", "", "", false, 0⟩ }

/-- Witness for C10: the unrelated caller 99 reads patient 3's profile. -/
theorem C10_witness :
    PatientContract.getPatientProfile demoWorld 99 3 =
      .ok (demoWorld.patient.patientProfiles 3) :=
  C10_getPatientProfile_no_caller_auth demoWorld 99 3 rfl (by decide)

/-- The state change a successful `uploadSelfRecord` performs: append the new
record to the caller's self-record list. -/
def pushSelf (w : World) (P : Address) (r : SelfUploadedRecord) : World :=
  { w with patient :=
    { w.patient with patientSelfRecords := (setMap w.patient.patientSelfRecords P
        (w.patient.patientSelfRecords P ++ [r])) } }

/-- A wired, active patient with non-blank cid and file name uploads
successfully, appending exactly one record with `isEncrypted = true` and the
operation timestamp. -/
theorem uploadSelfRecord_ok (w : World) (P : Address) (cid fn rt ds : String)
    (t : Nat) (hadm : w.patient.adminContract = w.adminAddr)
    (hact : (w.admin.patients P).isActive = true)
    (hc : cid ≠ "") (hf : fn ≠ "") :
    PatientContract.uploadSelfRecord w P cid fn rt ds t =
      .ok (pushSelf w P ⟨cid, fn, rt, ds, t, true⟩) := by
  unfold PatientContract.uploadSelfRecord pushSelf
  rw [isPatientRegistered_wired w P hadm, okBind, hact, require_true, okBind]
  rw [decide_eq_true hc, require_true, okBind, decide_eq_true hf, require_true, okBind]

/-- C9: an active patient with an empty self-record list uploads `r0` then
`r1` and deletes index 0; the subsequent `getMySelfRecords` returns exactly
one record whose fields are those of the second upload (swap-with-last and
truncate semantics). -/
theorem C9_self_record_swap_delete (w : World) (P : Address)
    (cid0 fn0 rt0 ds0 cid1 fn1 rt1 ds1 : String) (t0 t1 : Nat)
    (hadm : w.patient.adminContract = w.adminAddr)
    (hact : (w.admin.patients P).isActive = true)
    (hemp : w.patient.patientSelfRecords P = [])
    (hc0 : cid0 ≠ "") (hf0 : fn0 ≠ "") (hc1 : cid1 ≠ "") (hf1 : fn1 ≠ "") :
    (PatientContract.uploadSelfRecord w P cid0 fn0 rt0 ds0 t0 >>= fun w1 =>
      PatientContract.uploadSelfRecord w1 P cid1 fn1 rt1 ds1 t1 >>= fun w2 =>
      PatientContract.deleteSelfRecord w2 P 0 >>= fun w3 =>
      PatientContract.getMySelfRecords w3 P) =
      .ok [⟨cid1, fn1, rt1, ds1, t1, true⟩] := by
  rw [uploadSelfRecord_ok w P cid0 fn0 rt0 ds0 t0 hadm hact hc0 hf0, okBind,
    uploadSelfRecord_ok (pushSelf w P ⟨cid0, fn0, rt0, ds0, t0, true⟩) P
      cid1 fn1 rt1 ds1 t1 hadm hact hc1 hf1, okBind]
  simp [PatientContract.deleteSelfRecord, PatientContract.getMySelfRecords,
    PatientContract.isPatientRegistered, extIsPatientActive, decodeBool,
    require, pushSelf, setMap, hadm, hact, hemp, List.getD, okBind]

/-- Witness for C9 in the concrete wired deployment. -/
theorem C9_witness :
    (PatientContract.uploadSelfRecord demoWorld 3 "CIDa" "a.pdf" "TypeA" "d0" 20 >>= fun w1 =>
      PatientContract.uploadSelfRecord w1 3 "CIDb" "b.pdf" "TypeB" "d1" 21 >>= fun w2 =>
      PatientContract.deleteSelfRecord w2 3 0 >>= fun w3 =>
      PatientContract.getMySelfRecords w3 3) =
      .ok [⟨"CIDb", "b.pdf", "TypeB", "d1", 21, true⟩] :=
  C9_self_record_swap_delete demoWorld 3 "CIDa" "a.pdf" "TypeA" "d0" "CIDb" "b.pdf"
    "TypeB" "d1" 20 21 rfl (by decide) rfl (by decide) (by decide) (by decide) (by decide)

/-- A failed `Except` step short-circuits the rest of the chain. -/
theorem errBind {α β : Type} (e : SolError) (f : α → Except SolError β) :
    ((Except.error e : Except SolError α) >>= f) = Except.error e := rfl

/-- The patient personally always passes `getMedicalRecords`'s access check
(`msg.sender == _patientId`). -/
theorem getMedicalRecords_self (w : World) (p : Address) :
    MedicContract.getMedicalRecords w p p = .ok (w.medic.patientRecords p) := by
  unfold MedicContract.getMedicalRecords
  simp [require, okBind]

/-- The patient personally always passes `getActiveMedicalRecords`'s access
check, and the result is the in-order active filter of the stored list. -/
theorem getActiveMedicalRecords_self (w : World) (p : Address) :
    MedicContract.getActiveMedicalRecords w p p =
      .ok ((w.medic.patientRecords p).filter (fun r => r.isActive)) := by
  unfold MedicContract.getActiveMedicalRecords
  simp [require, okBind]

/-- Replacing an active entry by an inactive one shrinks the active filter
by exactly one. -/
theorem filter_length_set_inactive (l : List MedicalRecord) (i : Nat)
    (v : MedicalRecord) (hi : i < l.length)
    (hact : (l.getD i MedicalRecord.zero).isActive = true)
    (hv : v.isActive = false) :
    ((l.set i v).filter (fun r => r.isActive)).length + 1 =
      (l.filter (fun r => r.isActive)).length := by
  induction l generalizing i with
  | nil => simp at hi
  | cons a t ih =>
    cases i with
    | zero =>
      simp only [List.getD_cons_zero] at hact
      simp [List.filter_cons, hact, hv]
    | succ n =>
      simp only [List.getD_cons_succ] at hact
      have hn : n < t.length := by simpa using hi
      have hrec := ih n hn hact
      simp only [List.set_cons_succ, List.filter_cons]
      by_cases ha : a.isActive = true
      · simp only [ha, if_true, List.length_cons]
        omega
      · simp only [ha, Bool.false_eq_true, if_false]
        omega

/-- C8 (amended): a successful `deactivateRecord(p, i)` on a record that was
active rewrites the stored list to the same list with only the `isActive`
flag of entry `i` cleared — so `getMedicalRecords` keeps its length and every
other record and field is untouched — and the in-order active list served by
`getActiveMedicalRecords` shrinks by exactly one.  (When the record at `i`
was already inactive the call also succeeds but the active length is
unchanged — see the counterexample to the claim as stated.) -/
theorem C8_soft_delete_invariant (w w2 : World) (d p : Address) (i : Nat)
    (hok : MedicContract.deactivateRecord w d p i = .ok w2)
    (hact : ((w.medic.patientRecords p).getD i MedicalRecord.zero).isActive = true) :
    MedicContract.getMedicalRecords w2 p p =
      .ok ((w.medic.patientRecords p).set i
        { (w.medic.patientRecords p).getD i MedicalRecord.zero with isActive := false }) ∧
    MedicContract.getActiveMedicalRecords w p p =
      .ok ((w.medic.patientRecords p).filter (fun r => r.isActive)) ∧
    MedicContract.getActiveMedicalRecords w2 p p =
      .ok ((w2.medic.patientRecords p).filter (fun r => r.isActive)) ∧
    ((w2.medic.patientRecords p).filter (fun r => r.isActive)).length + 1 =
      ((w.medic.patientRecords p).filter (fun r => r.isActive)).length := by
  unfold MedicContract.deactivateRecord at hok
  simp only [] at hok
  cases h1 : w.medic.authorizedDoctors d with
  | false => rw [h1, require_false, errBind] at hok; exact absurd hok (by simp)
  | true =>
    rw [h1, require_true, okBind] at hok
    by_cases h2 : i < (w.medic.patientRecords p).length
    case neg =>
      rw [decide_eq_false h2, require_false, errBind] at hok
      exact absurd hok (by simp)
    case pos =>
      rw [decide_eq_true h2, require_true, okBind] at hok
      by_cases h3 : ((w.medic.patientRecords p).getD i MedicalRecord.zero).doctorId = d
      case neg =>
        rw [decide_eq_false h3, require_false, errBind] at hok
        exact absurd hok (by simp)
      case pos =>
        rw [decide_eq_true h3, require_true, okBind] at hok
        injection hok with hW
        subst hW
        refine ⟨?_, getActiveMedicalRecords_self w p, ?_, ?_⟩
        · rw [getMedicalRecords_self]
          simp only [setMap, if_true, eq_self_iff_true]
        · exact getActiveMedicalRecords_self _ p
        · simp only [setMap, if_true, eq_self_iff_true]
          exact filter_length_set_inactive _ i _ h2 hact rfl

/-- The wired deployment with one active record for patient 3 authored by
doctor 2. -/
def c8wA : World :=
  { demoWorld with medic := { demoWorld.medic with patientRecords :=
      fun a => if a = 3 then [⟨"QmC", "r.pdf", 3, "flu", "rest", 2, 8, true⟩] else [] } }

/-- The state after doctor 2 deactivates record 0 of patient 3 in `c8wA`. -/
def c8wB : World :=
  match MedicContract.deactivateRecord c8wA 2 3 0 with
  | .ok w => w
  | .error _ => c8wA

/-- Witness for C8 on the concrete deployment. -/
theorem C8_witness :
    MedicContract.getMedicalRecords c8wB 3 3 =
      .ok ((c8wA.medic.patientRecords 3).set 0
        { (c8wA.medic.patientRecords 3).getD 0 MedicalRecord.zero with isActive := false }) ∧
    MedicContract.getActiveMedicalRecords c8wA 3 3 =
      .ok ((c8wA.medic.patientRecords 3).filter (fun r => r.isActive)) ∧
    MedicContract.getActiveMedicalRecords c8wB 3 3 =
      .ok ((c8wB.medic.patientRecords 3).filter (fun r => r.isActive)) ∧
    ((c8wB.medic.patientRecords 3).filter (fun r => r.isActive)).length + 1 =
      ((c8wA.medic.patientRecords 3).filter (fun r => r.isActive)).length :=
  C8_soft_delete_invariant c8wA c8wB 2 3 0 rfl rfl

/-- The wired deployment with one already-inactive record for patient 3
authored by doctor 2. -/
def c8wI : World :=
  { demoWorld with medic := { demoWorld.medic with patientRecords :=
      fun a => if a = 3 then [⟨"QmC", "r.pdf", 3, "flu", "rest", 2, 8, false⟩] else [] } }

/-- Counterexample to C8 as stated: `deactivateRecord` on an index holding an
already-inactive record succeeds, yet the length of
`getActiveMedicalRecords` is 0 before and 0 after — not "exactly one less". -/
theorem C8_counterexample :
    (MedicContract.deactivateRecord c8wI 2 3 0).isOk = true ∧
    MedicContract.getActiveMedicalRecords c8wI 3 3 = .ok [] ∧
    (MedicContract.deactivateRecord c8wI 2 3 0 >>= fun w2 =>
      MedicContract.getActiveMedicalRecords w2 3 3) = .ok [] :=
  ⟨rfl, rfl, rfl⟩

/-- The deployment with the cross-component pointers unset (`address(0)`),
e.g. right after construction with zero addresses. -/
def unwiredWorld : World :=
  { demoWorld with
      medic := { demoWorld.medic with adminContract := 0 }
      patient := { demoWorld.patient with medicContract := 0, adminContract := 0 } }

/-- The deployment in which the self-service store's `adminContract` points
at the Clinical Record Store — a deployed contract that lacks the
`isPatientActive(address)` selector, so the staticcall itself fails. -/
def miswiredWorld : World :=
  { demoWorld with patient := { demoWorld.patient with adminContract := 11 } }

/-- C3 at the failing input: with the remote component unset, the two
null-guarded queries (`MedicContract._isPatientActive`,
`PatientContract.isDoctorAuthorized`) degrade to `false` as the claim says,
and a failed remote call also degrades to `false` for
`isPatientRegistered`; but `PatientContract.isPatientRegistered` with an
unset `adminContract` REVERTS — the staticcall to the codeless zero address
succeeds with empty returndata and `abi.decode` then reverts — instead of
returning `false`. -/
theorem C3_fail_closed_divergence :
    MedicContract.isPatientActiveQ unwiredWorld 3 = .ok false ∧
    PatientContract.isDoctorAuthorized unwiredWorld 2 = .ok false ∧
    PatientContract.isPatientRegistered miswiredWorld 3 = .ok false ∧
    PatientContract.isPatientRegistered unwiredWorld 3 = .error (.revert "") :=
  ⟨rfl, rfl, rfl, rfl⟩

/-- C7 at the failing input: `addMedicalRecord` carries no blank-check on the
content address — called by the authorized doctor 2 for the active patient 3
with an empty cid, it succeeds and appends a record with the empty content
address, `isActive = true` and the operation timestamp (the repo's own test
"should not add record with empty CID" expects a revert here). -/
theorem C7_empty_cid_accepted :
    (MedicContract.addMedicalRecord demoWorld 2 "" "report.pdf" 3 "Hypertension" "ACE" 9 >>= fun w2 =>
      MedicContract.getMedicalRecords w2 2 3) =
      .ok [⟨"", "report.pdf", 3, "Hypertension", "ACE", 2, 9, true⟩] := rfl

/-- C1 (amended): when the Identity Registry's downstream pointer addresses
the deployed Clinical Record Store at revoke time, a completed
`revokeDoctor(d)` has necessarily pushed the revocation into the store's
`authorizedDoctors` cache (the push is required to succeed), so every
subsequent `addMedicalRecord` call by `d` fails with the store's
Unauthorized error.  The store itself checks only its local cache — there is
no pull reconciliation — so when the pointer was unset at revoke time the
cache survives and `addMedicalRecord` by `d` can still succeed (see the
counterexample). -/
theorem C1_revoke_with_wired_registry_blocks_add (w w2 : World) (sender d : Address)
    (hwire : w.admin.medicContract = w.medicAddr) (hmz : w.medicAddr ≠ 0)
    (hok : AdminContract.revokeDoctor w sender d = .ok w2) :
    w2.medic.authorizedDoctors d = false ∧
    ∀ cid fn pt dg tr t, MedicContract.addMedicalRecord w2 d cid fn pt dg tr t =
      .error (.revert "Not an authorized medical provider") := by
  unfold AdminContract.revokeDoctor at hok
  by_cases h1 : sender = w.admin.owner
  case neg =>
    rw [decide_eq_false h1, require_false, errBind] at hok
    exact absurd hok (by simp)
  case pos =>
    rw [decide_eq_true h1, require_true, okBind] at hok
    cases h2 : (w.admin.doctors d).isAuthorized with
    | false => rw [h2, require_false, errBind] at hok; exact absurd hok (by simp)
    | true =>
      rw [h2, require_true, okBind] at hok
      dsimp only at hok
      rw [if_pos (by simpa [hwire] using hmz)] at hok
      unfold callRevokeDoctor at hok
      dsimp only at hok
      rw [if_pos hwire] at hok
      unfold MedicContract.revokeDoctor at hok
      dsimp only at hok
      cases h3 : (decide (w.adminAddr = w.medic.adminContract) ||
          decide (w.adminAddr = w.medic.owner)) with
      | false =>
        rw [h3] at hok
        simp [require_false, errBind] at hok
      | true =>
        rw [h3, require_true, okBind] at hok
        dsimp only at hok
        rw [require_true, okBind] at hok
        injection hok with hW
        subst hW
        constructor
        · simp [setMap]
        · intro cid fn pt dg tr t
          unfold MedicContract.addMedicalRecord
          dsimp only
          have hcache : setMap w.medic.authorizedDoctors d false d = false := by
            simp [setMap]
          rw [hcache, require_false, errBind]

/-- Extract the successor state of a successful transaction. -/
def okOr (x : Except SolError World) (dflt : World) : World :=
  match x with
  | .ok w => w
  | .error _ => dflt

/-- The state after the owner revokes doctor 2 in the fully wired
deployment. -/
def c1wB : World := okOr (AdminContract.revokeDoctor demoWorld 1 2) demoWorld

/-- Witness for the amended C1 in the wired deployment: after the revoke the
cache is cleared and the revoked doctor's `addMedicalRecord` reverts with
the Unauthorized error. -/
theorem C1_witness :
    c1wB.medic.authorizedDoctors 2 = false ∧
    MedicContract.addMedicalRecord c1wB 2 "QmX" "f.pdf" 3 "d" "t" 30 =
      .error (.revert "Not an authorized medical provider") :=
  ⟨(C1_revoke_with_wired_registry_blocks_add demoWorld c1wB 1 2 rfl (by decide) rfl).1,
    (C1_revoke_with_wired_registry_blocks_add demoWorld c1wB 1 2 rfl (by decide) rfl).2
      "QmX" "f.pdf" 3 "d" "t" 30⟩

/-- Fresh deployment for the C1 counterexample trace: registry at 10, record
store at 11, self-service store at 12, deployer 1; the registry's
`medicContract` pointer is never configured. -/
def c1t0 : World := initWorld 10 11 12 1 11 10

/-- Owner wires the record store to the registry. -/
def c1t1 : World := okOr (MedicContract.setAdminContract c1t0 1 10) c1t0

/-- Owner seeds the record store's authorization cache for doctor 2 (the
owner passes the store's `onlyAdmin`). -/
def c1t2 : World := okOr (MedicContract.authorizeDoctor c1t1 1 2) c1t1

/-- Owner registers doctor 2 in the registry; `medicContract` is unset there,
so no push happens. -/
def c1t3 : World :=
  okOr (AdminContract.registerDoctor c1t2 1 2 "Dr. Smith" "Cardiology" "LIC1" 5) c1t2

/-- Owner registers patient 3 in the registry. -/
def c1t4 : World :=
  okOr (AdminContract.registerPatient c1t3 1 3 "Alice" "1990-01-01" "123" "Bob" 6) c1t3

/-- Owner revokes doctor 2: the registry clears its own flag, but with
`medicContract` unset the push is skipped and the record store's cache still
authorizes doctor 2. -/
def c1t5 : World := okOr (AdminContract.revokeDoctor c1t4 1 2) c1t4

/-- Counterexample to C1 as stated: `c1t4` is reachable from a fresh
deployment, `revokeDoctor(2)` completes there, and the subsequent
`addMedicalRecord` by the revoked doctor 2 does NOT fail Unauthorized — it
succeeds and appends a record, because the Clinical Record Store checks only
its local cache (no pull reconciliation) and the cache was never told. -/
theorem C1_counterexample :
    Reach c1t4 ∧
    AdminContract.revokeDoctor c1t4 1 2 = .ok c1t5 ∧
    (MedicContract.addMedicalRecord c1t5 2 "QmZ" "f.pdf" 3 "diag" "tr" 7 >>= fun w6 =>
      MedicContract.getMedicalRecords w6 2 3).map List.length = .ok 1 := by
  refine ⟨?_, rfl, rfl⟩
  have h0 : Reach c1t0 := Reach.init 10 11 12 1 11 10
  have h1 : Reach c1t1 := Reach.medicSetAdmin 1 10 h0 rfl
  have h2 : Reach c1t2 := Reach.medicAuthorize 1 2 h1 rfl
  have h3 : Reach c1t3 :=
    Reach.adminRegisterDoctor 1 2 "Dr. Smith" "Cardiology" "LIC1" 5 h2 rfl
  exact Reach.adminRegisterPatient 1 3 "Alice" "1990-01-01" "123" "Bob" 6 h3 rfl
